import Mathlib

/-!
Shallow embedding of the Flo Home Assistant custom component
(`custom_components/flo/api.py` and `custom_components/flo/coordinator.py`).

The API client (`FloAPI`) is modelled as a state machine over its token
fields.  Network I/O is modelled by an oracle: a list of token-endpoint
responses consumed in order by each POST to `/v1/oauth2/token`.  Python
dictionaries from JSON bodies are modelled as association lists of
`JVal` values; Python truthiness and KeyError behaviour are modelled
explicitly, following the source line by line.

The device coordinator (`FloDeviceDataUpdateCoordinator`) is modelled as
a state machine over its two cached documents and the consecutive
failure counter; one update cycle consumes a `CycleEnv` describing the
outcome each of the three fetches would have.
-/

namespace Flo

/-- A JSON-ish dynamic value, as held in the parsed Python dicts. -/
inductive JVal where
  | null : JVal
  | bool (b : Bool) : JVal
  | num (n : Int) : JVal
  | str (s : String) : JVal
  | obj (fields : List (String × JVal)) : JVal

/-- `d.get(k)` / `d[k]` lookup on a Python dict modelled as an
association list: the first binding of the key, if any. -/
def dictGet (fs : List (String × JVal)) (k : String) : Option JVal :=
  (fs.find? (fun p => p.1 = k)).map (fun p => p.2)

/-- Python truthiness of a value (`if not x`): `None`, `False`, `0`,
`""` and `{}` are falsy, everything else truthy. -/
def JVal.truthy : JVal → Bool
  | .null => false
  | .bool b => b
  | .num n => decide (n ≠ 0)
  | .str s => decide (s ≠ "")
  | .obj fs => !fs.isEmpty

/-- Python truthiness of an optional field (`None` is falsy). -/
def optTruthy : Option JVal → Bool
  | none => false
  | some v => v.truthy

/-- Python `str(x)` as used by the f-string in `device_name`.  The
vendor documents carry the model as a JSON string, and no claim depends
on the rendering of non-string values; the dict rendering is therefore
left schematic. -/
def JVal.pyStr : JVal → String
  | .null => "None"
  | .bool b => if b then "True" else "False"
  | .num n => toString n
  | .str s => s
  | .obj _ => "\x7b...\x7d"

/-- Exceptions observable at the client boundary: the integration's two
wrapper errors plus raw Python exceptions that escape uncaught. -/
inductive ApiError where
  | authError : ApiError           -- FloAuthError
  | requestError : ApiError        -- FloRequestError
  | keyError (k : String) : ApiError   -- an uncaught Python KeyError
  | typeError : ApiError           -- an uncaught Python TypeError
  | attributeError : ApiError      -- an uncaught Python AttributeError
deriving DecidableEq, Repr

/-- Outcome of one POST to the token endpoint: a transport-level
failure (`aiohttp.ClientError`) or a parsed JSON body, possibly with
fields missing. -/
inductive AuthResp where
  | transportFailure : AuthResp
  | success (body : List (String × JVal)) : AuthResp

/-- The network oracle: token-endpoint responses consumed in order. -/
abbrev Env := List AuthResp

/-- Consume the next token-endpoint response.  An exhausted oracle
behaves as a transport failure (modelling choice; every theorem below
supplies the responses it needs explicitly). -/
def takeResp : Env → AuthResp × Env
  | [] => (.transportFailure, [])
  | r :: rs => (r, rs)

/-- The token state of `FloAPI` (`_access_token`, `_refresh_token`,
`_token_expiration`, `_user_id`), with ghost exchange tags:
`exchangeCount` numbers the auth exchanges whose body was received, and
`tokenTag` / `expTag` record which exchange last wrote the access token
and the expiration.  Times are integer seconds. -/
structure ClientState where
  accessToken : Option JVal
  refreshToken : Option JVal
  tokenExpiration : Option Int
  userId : Option JVal
  exchangeCount : Nat
  tokenTag : Nat
  expTag : Nat

/-- The state of a freshly constructed client: all token fields `None`. -/
def initialState : ClientState :=
  { accessToken := none, refreshToken := none, tokenExpiration := none
    userId := none, exchangeCount := 0, tokenTag := 0, expTag := 0 }

/-- Result of one client operation: the new state, the exception raised
(if any), and the remaining oracle. -/
structure OpResult where
  st : ClientState
  err : Option ApiError
  env : Env

/-- `FloAPI.authenticate`: POST the password grant; on success assign
`_access_token`, `_refresh_token`, `_user_id` in that order, then read
`expires_in` and set `_token_expiration = now + expires_in`.
`ClientError` and `KeyError` are caught and re-raised as `FloAuthError`;
assignments made before a missing key are kept (the source assigns the
fields one by one before validating the rest of the body). -/
def authenticate (now : Int) (st : ClientState) (env : Env) : OpResult :=
  match takeResp env with
  | (.transportFailure, env) => ⟨st, some .authError, env⟩
  | (.success body, env) =>
    let ex := st.exchangeCount + 1
    let st := { st with exchangeCount := ex }
    match dictGet body "access_token" with
    | none => ⟨st, some .authError, env⟩
    | some tok =>
      let st := { st with accessToken := some tok, tokenTag := ex }
      match dictGet body "refresh_token" with
      | none => ⟨st, some .authError, env⟩
      | some rt =>
        let st := { st with refreshToken := some rt }
        match dictGet body "user_id" with
        | none => ⟨st, some .authError, env⟩
        | some uid =>
          let st := { st with userId := some uid }
          match dictGet body "expires_in" with
          | none => ⟨st, some .authError, env⟩
          | some (.num ei) =>
            ⟨{ st with tokenExpiration := some (now + ei), expTag := ex }, none, env⟩
          | some (.bool b) =>   -- Python bool is an int: timedelta accepts it
            ⟨{ st with tokenExpiration := some (now + (if b then 1 else 0)), expTag := ex },
              none, env⟩
          | some _ => ⟨st, some .typeError, env⟩  -- timedelta(seconds=non-number)

/-- `FloAPI.refresh_access_token`: with no (truthy) refresh token, fall
back to `authenticate`.  Otherwise POST the refresh grant; on transport
failure fall back to `authenticate`; on success assign `_access_token`,
rotate `_refresh_token` only if present, then read `expires_in`.  Only
`ClientError` is caught here: a `KeyError` from a malformed body
propagates raw. -/
def refresh_access_token (now : Int) (st : ClientState) (env : Env) : OpResult :=
  if optTruthy st.refreshToken = false then
    authenticate now st env
  else
    match takeResp env with
    | (.transportFailure, env) => authenticate now st env
    | (.success body, env) =>
      let ex := st.exchangeCount + 1
      let st := { st with exchangeCount := ex }
      match dictGet body "access_token" with
      | none => ⟨st, some (.keyError "access_token"), env⟩
      | some tok =>
        let st := { st with accessToken := some tok, tokenTag := ex }
        let st :=
          match dictGet body "refresh_token" with
          | some rt => { st with refreshToken := some rt }
          | none => st
        match dictGet body "expires_in" with
        | none => ⟨st, some (.keyError "expires_in"), env⟩
        | some (.num ei) =>
          ⟨{ st with tokenExpiration := some (now + ei), expTag := ex }, none, env⟩
        | some (.bool b) =>
          ⟨{ st with tokenExpiration := some (now + (if b then 1 else 0)), expTag := ex },
            none, env⟩
        | some _ => ⟨st, some .typeError, env⟩

/-- Which call the token gate issued. -/
inductive GateAction where
  | calledAuthenticate : GateAction
  | calledRefresh : GateAction
  | noCall : GateAction
deriving DecidableEq, Repr

/-- `FloAPI._ensure_token_valid`: authenticate if `_access_token` is
falsy or `_token_expiration` is `None` (a held `datetime` is always
truthy); refresh if `now >= expiration - 5 minutes`; otherwise do
nothing.  The second component records which call was issued. -/
def ensure_token_valid (now : Int) (st : ClientState) (env : Env) :
    OpResult × GateAction :=
  match st.tokenExpiration with
  | none => (authenticate now st env, .calledAuthenticate)
  | some exp =>
    if optTruthy st.accessToken = false then
      (authenticate now st env, .calledAuthenticate)
    else if now ≥ exp - 300 then
      (refresh_access_token now st env, .calledRefresh)
    else
      (⟨st, none, env⟩, .noCall)

/-- One invocation of a token-mutating client operation.  `request`'s
effect on the token state is exactly that of its `_ensure_token_valid`
gate: the subsequent authenticated fetch never touches the token
fields. -/
inductive ClientOp where
  | opAuth (now : Int) : ClientOp
  | opRefresh (now : Int) : ClientOp
  | opRequest (now : Int) : ClientOp

def runOp : ClientOp → ClientState → Env → OpResult
  | .opAuth now, st, env => authenticate now st env
  | .opRefresh now, st, env => refresh_access_token now st env
  | .opRequest now, st, env => (ensure_token_valid now st env).1

/-- Run a sequence of client operations.  The state persists across
operations that end in an error, exactly as the Python object's fields
do when an exception propagates to the caller. -/
def runOps : List ClientOp → ClientState → Env → ClientState × Env
  | [], st, env => (st, env)
  | op :: ops, st, env =>
    let r := runOp op st env
    runOps ops r.st r.env

/-! ## Device coordinator (`coordinator.py`) -/

/-- Outcome of one authenticated fetch as observed at the coordinator
boundary: a parsed document, or one of the exceptions a `request` call
(token gate included) can raise into the update cycle.  `timeoutErr`
also stands for the cycle-level `asyncio.timeout(20)` expiring during
the step. -/
inductive FetchOutcome where
  | ok (doc : List (String × JVal)) : FetchOutcome
  | requestError : FetchOutcome    -- FloRequestError
  | authError : FetchOutcome       -- FloAuthError (from the token gate)
  | timeoutErr : FetchOutcome      -- TimeoutError
  | jsonError : FetchOutcome       -- orjson JSONDecodeError

/-- The exception kinds that can cross `_async_update_data`'s body. -/
inductive StepErr where
  | requestError : StepErr
  | authError : StepErr
  | timeoutErr : StepErr
  | jsonError : StepErr
deriving DecidableEq, Repr

/-- The exception an outcome raises, if any. -/
def FetchOutcome.err? : FetchOutcome → Option StepErr
  | .ok _ => none
  | .requestError => some .requestError
  | .authError => some .authError
  | .timeoutErr => some .timeoutErr
  | .jsonError => some .jsonError

/-- Whether `except (FloRequestError, TimeoutError, JSONDecodeError)`
in `_async_update_data` catches this exception.  `FloAuthError` is not
in the tuple. -/
def StepErr.isCaught : StepErr → Bool
  | .requestError => true
  | .authError => false
  | .timeoutErr => true
  | .jsonError => true

/-- The mutable per-device coordinator state: `_device_information`,
`_water_usage`, `_failure_count`. -/
structure CoordState where
  deviceInformation : List (String × JVal)
  waterUsage : List (String × JVal)
  failureCount : Nat

/-- The environment of one update cycle: what each of the three fetches
would return if reached. -/
structure CycleEnv where
  ping : FetchOutcome
  device : FetchOutcome
  consumption : FetchOutcome

/-- `_update_device`: replace the cached device document with the fetch
result; the assignment does not happen if the fetch raises. -/
def update_device (st : CoordState) (o : FetchOutcome) :
    CoordState × Option StepErr :=
  match o with
  | .ok doc => ({ st with deviceInformation := doc }, none)
  | o => (st, o.err?)

/-- `_update_consumption_data`: replace the cached consumption document
on success; on `FloRequestError` (only) log and reset it to `{}`; any
other exception propagates with the cache unchanged. -/
def update_consumption_data (st : CoordState) (o : FetchOutcome) :
    CoordState × Option StepErr :=
  match o with
  | .ok doc => ({ st with waterUsage := doc }, none)
  | .requestError => ({ st with waterUsage := [] }, none)
  | o => (st, o.err?)

/-- The `try` body of `_async_update_data`: presence ping, device
fetch, consumption fetch, then `_failure_count = 0`; the first
exception aborts the rest of the body. -/
def cycleBody (env : CycleEnv) (st : CoordState) :
    CoordState × Option StepErr :=
  match env.ping.err? with
  | some e => (st, some e)
  | none =>
    match update_device st env.device with
    | (st, some e) => (st, some e)
    | (st, none) =>
      match update_consumption_data st env.consumption with
      | (st, some e) => (st, some e)
      | (st, none) => ({ st with failureCount := 0 }, none)

/-- How one update cycle ends, as seen by the host framework. -/
inductive CycleReport where
  | returned : CycleReport                -- returned without raising
  | updateFailed : CycleReport            -- raised UpdateFailed
  | uncaught (e : StepErr) : CycleReport  -- an exception escaped uncaught
deriving DecidableEq, Repr

/-- `_async_update_data`: run the body; catch `FloRequestError`,
`TimeoutError` and `JSONDecodeError`, increment `_failure_count`, and
raise `UpdateFailed` only when the incremented counter exceeds 3.  Any
other exception (e.g. `FloAuthError`) escapes with the counter
untouched. -/
def async_update_data (env : CycleEnv) (st : CoordState) :
    CoordState × CycleReport :=
  let st' := (cycleBody env st).1
  match (cycleBody env st).2 with
  | none => (st', .returned)
  | some e =>
    if e.isCaught then
      let st'' := { st' with failureCount := st'.failureCount + 1 }
      if st''.failureCount > 3 then (st'', .updateFailed) else (st'', .returned)
    else
      (st', .uncaught e)

/-- A sequence of update cycles, as driven by the host scheduler. -/
def runCycles : List CycleEnv → CoordState → CoordState × List CycleReport
  | [], st => (st, [])
  | e :: es, st =>
    let r := async_update_data e st
    let rest := runCycles es r.1
    (rest.1, r.2 :: rest.2)

/-- The exception raised by the body of a cycle, which depends only on
the environment, not on the cached state (proved below). -/
def cycleErr (env : CycleEnv) : Option StepErr :=
  match env.ping.err? with
  | some e => some e
  | none =>
    match env.device.err? with
    | some e => some e
    | none =>
      match env.consumption with
      | .requestError => none
      | o => o.err?

/-! ## Projections (`coordinator.py` properties) -/

/-- The `_manufacturer` constant. -/
def manufacturer : String := "Flo by Moen"

/-- The `model` property: `self._device_information["deviceModel"]`;
a missing key raises `KeyError`. -/
def model (di : List (String × JVal)) : Except ApiError JVal :=
  match dictGet di "deviceModel" with
  | none => .error (.keyError "deviceModel")
  | some v => .ok v

/-- The `device_name` property:
`self._device_information.get("nickname", f"{self.manufacturer} {self.model}")`.
Python evaluates the f-string default argument before calling `.get`,
so the `model` lookup runs even when a nickname is present. -/
def device_name (di : List (String × JVal)) : Except ApiError JVal :=
  match model di with
  | .error e => .error e
  | .ok m => .ok ((dictGet di "nickname").getD (.str (manufacturer ++ " " ++ m.pyStr)))

/-- The `consumption_today` property: `None` when `_water_usage` is
falsy, `None` when the `aggregations` field is absent or falsy,
otherwise `aggregations.get("sumTotalGallonsConsumed")` (an
`AttributeError` if `aggregations` is not a dict). -/
def consumption_today (wu : List (String × JVal)) :
    Except ApiError (Option JVal) :=
  if wu.isEmpty then .ok none
  else
    match dictGet wu "aggregations" with
    | none => .ok none
    | some a =>
      if a.truthy = false then .ok none
      else
        match a with
        | .obj fs => .ok (dictGet fs "sumTotalGallonsConsumed")
        | _ => .error .attributeError

/-- Classifier used to state the `consumption_today` claims: the call
returned the none-equivalent value. -/
def isNoneEquiv : Except ApiError (Option JVal) → Bool
  | .ok none => true
  | _ => false

/-- Classifier used to state the `consumption_today` claims: the call
returned a numeric value. -/
def isNumericResult : Except ApiError (Option JVal) → Bool
  | .ok (some (.num _)) => true
  | _ => false

/-! ## Specification-side predicates for the token invariant -/

/-- A token-endpoint body that, if it provides `access_token`, also
provides every field the client reads after it (`refresh_token`,
`user_id`, and a numeric `expires_in`). -/
def wellFormedBody (body : List (String × JVal)) : Prop :=
  dictGet body "access_token" ≠ none →
    (dictGet body "refresh_token" ≠ none ∧ dictGet body "user_id" ≠ none ∧
      ∃ n : Int, dictGet body "expires_in" = some (.num n))

/-- An oracle all of whose successful responses are well-formed. -/
def wellFormedEnv (env : Env) : Prop :=
  ∀ body, AuthResp.success body ∈ env → wellFormedBody body

/-- The spec's token invariant: a non-null access token implies a
non-null expiration written by the same auth exchange. -/
def tokenInv (st : ClientState) : Prop :=
  st.accessToken ≠ none → (st.tokenExpiration ≠ none ∧ st.tokenTag = st.expTag)

/-! ## Supporting lemmas: API client token invariant -/

theorem wellFormedEnv_tail (r : AuthResp) (rs : Env)
    (h : wellFormedEnv (r :: rs)) : wellFormedEnv rs :=
  fun body hb => h body (List.mem_cons_of_mem r hb)

/-- `authenticate` preserves the token invariant when the oracle is
well-formed, and leaves a well-formed oracle. -/
theorem authenticate_preserves (now : Int) (st : ClientState) (env : Env)
    (hwf : wellFormedEnv env) (hinv : tokenInv st) :
    tokenInv (authenticate now st env).st ∧
    wellFormedEnv (authenticate now st env).env := by
  cases env with
  | nil => exact ⟨hinv, hwf⟩
  | cons r rs =>
    have hwfs : wellFormedEnv rs := wellFormedEnv_tail r rs hwf
    cases r with
    | transportFailure => exact ⟨hinv, hwfs⟩
    | success body =>
      have hb : wellFormedBody body := hwf body (List.mem_cons_self _ _)
      cases hacc : dictGet body "access_token" with
      | none =>
        refine ⟨?_, ?_⟩ <;> simp only [authenticate, takeResp, hacc]
        · exact hinv
        · exact hwfs
      | some tok =>
        obtain ⟨hrt, huid, n, hei⟩ := hb (by simp [hacc])
        obtain ⟨rt, hrt'⟩ := Option.ne_none_iff_exists'.mp hrt
        obtain ⟨uid, huid'⟩ := Option.ne_none_iff_exists'.mp huid
        refine ⟨?_, ?_⟩ <;>
          simp only [authenticate, takeResp, hacc, hrt', huid', hei]
        · exact fun _ => ⟨Option.some_ne_none _, rfl⟩
        · exact hwfs

/-- `refresh_access_token` preserves the token invariant when the
oracle is well-formed, and leaves a well-formed oracle. -/
theorem refresh_preserves (now : Int) (st : ClientState) (env : Env)
    (hwf : wellFormedEnv env) (hinv : tokenInv st) :
    tokenInv (refresh_access_token now st env).st ∧
    wellFormedEnv (refresh_access_token now st env).env := by
  by_cases hft : optTruthy st.refreshToken = false
  · rw [refresh_access_token, if_pos hft]
    exact authenticate_preserves now st env hwf hinv
  · rw [refresh_access_token, if_neg hft]
    cases env with
    | nil => exact ⟨hinv, hwf⟩
    | cons r rs =>
      have hwfs : wellFormedEnv rs := wellFormedEnv_tail r rs hwf
      cases r with
      | transportFailure => exact authenticate_preserves now st rs hwfs hinv
      | success body =>
        have hb : wellFormedBody body := hwf body (List.mem_cons_self _ _)
        cases hacc : dictGet body "access_token" with
        | none =>
          refine ⟨?_, ?_⟩ <;> simp only [takeResp, hacc]
          · exact hinv
          · exact hwfs
        | some tok =>
          obtain ⟨hrt, huid, n, hei⟩ := hb (by simp [hacc])
          obtain ⟨rt, hrt'⟩ := Option.ne_none_iff_exists'.mp hrt
          refine ⟨?_, ?_⟩ <;> simp only [takeResp, hacc, hrt', hei]
          · exact fun _ => ⟨Option.some_ne_none _, rfl⟩
          · exact hwfs

/-- The token gate preserves the token invariant when the oracle is
well-formed, and leaves a well-formed oracle. -/
theorem gate_preserves (now : Int) (st : ClientState) (env : Env)
    (hwf : wellFormedEnv env) (hinv : tokenInv st) :
    tokenInv (ensure_token_valid now st env).1.st ∧
    wellFormedEnv (ensure_token_valid now st env).1.env := by
  rw [ensure_token_valid]
  cases st.tokenExpiration with
  | none => exact authenticate_preserves now st env hwf hinv
  | some exp =>
    dsimp only
    by_cases htok : optTruthy st.accessToken = false
    · rw [if_pos htok]
      exact authenticate_preserves now st env hwf hinv
    · rw [if_neg htok]
      by_cases hnear : now ≥ exp - 300
      · rw [if_pos hnear]
        exact refresh_preserves now st env hwf hinv
      · rw [if_neg hnear]
        exact ⟨hinv, hwf⟩

/-- Every client operation sequence preserves the token invariant over
a well-formed oracle. -/
theorem runOps_preserves (ops : List ClientOp) :
    ∀ (st : ClientState) (env : Env), wellFormedEnv env → tokenInv st →
      tokenInv (runOps ops st env).1 ∧
      wellFormedEnv (runOps ops st env).2 := by
  induction ops with
  | nil => exact fun st env hwf hinv => ⟨hinv, hwf⟩
  | cons op ops ih =>
    intro st env hwf hinv
    have hstep :
        tokenInv (runOp op st env).st ∧ wellFormedEnv (runOp op st env).env := by
      cases op with
      | opAuth now => exact authenticate_preserves now st env hwf hinv
      | opRefresh now => exact refresh_preserves now st env hwf hinv
      | opRequest now => exact gate_preserves now st env hwf hinv
    exact ih (runOp op st env).st (runOp op st env).env hstep.2 hstep.1

/-- A successful dict lookup means the dict is non-empty. -/
theorem dictGet_ne_nil {l : List (String × JVal)} {k : String} {v : JVal}
    (h : dictGet l k = some v) : l ≠ [] := by
  intro he
  subst he
  simp [dictGet] at h

/-! ## Supporting lemmas: coordinator -/

/-- The exception raised by the body of a cycle depends only on the
environment, not on the cached state. -/
theorem cycleBody_err (env : CycleEnv) (st : CoordState) :
    (cycleBody env st).2 = cycleErr env := by
  obtain ⟨p, d, c⟩ := env
  cases p <;> cases d <;> cases c <;> rfl

/-- A cycle whose body raises leaves the failure counter unchanged:
the body only writes it (to 0) after all three steps succeed. -/
theorem cycleBody_count (env : CycleEnv) (st : CoordState) (e : StepErr)
    (h : (cycleBody env st).2 = some e) :
    (cycleBody env st).1.failureCount = st.failureCount := by
  obtain ⟨p, d, c⟩ := env
  cases p <;> cases d <;> cases c <;>
    simp_all [cycleBody, update_device, update_consumption_data, FetchOutcome.err?]

/-- Characterization of a cycle whose body raises a caught exception:
the counter is incremented and `UpdateFailed` is raised exactly when
the incremented counter exceeds 3. -/
theorem async_update_soft (env : CycleEnv) (st : CoordState) (e : StepErr)
    (h : cycleErr env = some e) (hc : e.isCaught = true) :
    async_update_data env st =
      ({ (cycleBody env st).1 with failureCount := st.failureCount + 1 },
        if st.failureCount + 1 > 3 then CycleReport.updateFailed
        else CycleReport.returned) := by
  have h2 : (cycleBody env st).2 = some e := (cycleBody_err env st).trans h
  have h3 := cycleBody_count env st e h2
  simp only [async_update_data, h2, hc, if_true, h3]
  split <;> simp_all

/-- Characterization of a cycle whose body raises an exception not in
the `except` tuple: it escapes, and the state is the body's state. -/
theorem async_update_uncaught (env : CycleEnv) (st : CoordState) (e : StepErr)
    (h : cycleErr env = some e) (hc : e.isCaught = false) :
    async_update_data env st = ((cycleBody env st).1, .uncaught e) := by
  have h2 : (cycleBody env st).2 = some e := (cycleBody_err env st).trans h
  simp only [async_update_data, h2, hc]
  simp

/-- Projection form of `async_update_soft`, convenient for chaining
cycles. -/
theorem soft_cycle_step (env : CycleEnv) (st : CoordState) (e : StepErr)
    (h : cycleErr env = some e) (hc : e.isCaught = true) :
    (async_update_data env st).1.failureCount = st.failureCount + 1 ∧
    (async_update_data env st).2 =
      (if st.failureCount + 1 > 3 then CycleReport.updateFailed
       else CycleReport.returned) := by
  rw [async_update_soft env st e h hc]
  exact ⟨rfl, rfl⟩

/-- The reports of a cycle sequence, unfolded one step. -/
theorem runCycles_cons (env : CycleEnv) (envs : List CycleEnv) (st : CoordState) :
    runCycles (env :: envs) st =
      ((runCycles envs (async_update_data env st).1).1,
        (async_update_data env st).2 ::
          (runCycles envs (async_update_data env st).1).2) := rfl

/-! ## Claim theorems -/

/-- C1: a cycle that fails with a transport failure, timeout, or
malformed-response error increments the consecutive-failure counter and
is reported as failed (raises `UpdateFailed`) if and only if the
counter after incrementing exceeds 3; in particular, starting from a
zero counter, the 1st, 2nd and 3rd consecutive soft failures report no
failure upward and the 4th does. -/
theorem C1_soft_failure_debounce (st : CoordState) (env : CycleEnv) (e : StepErr)
    (hsoft : cycleErr env = some e) (hc : e.isCaught = true) :
    ((async_update_data env st).1.failureCount = st.failureCount + 1 ∧
      ((async_update_data env st).2 = CycleReport.updateFailed ↔
        st.failureCount + 1 > 3)) ∧
    (st.failureCount = 0 →
      ∀ env2 env3 env4 e2 e3 e4,
        cycleErr env2 = some e2 → e2.isCaught = true →
        cycleErr env3 = some e3 → e3.isCaught = true →
        cycleErr env4 = some e4 → e4.isCaught = true →
        (runCycles [env, env2, env3, env4] st).2 =
          [CycleReport.returned, CycleReport.returned,
            CycleReport.returned, CycleReport.updateFailed]) := by
  obtain ⟨c1, r1⟩ := soft_cycle_step env st e hsoft hc
  refine ⟨⟨c1, ?_⟩, ?_⟩
  · rw [r1]
    by_cases hgt : st.failureCount + 1 > 3 <;> simp [hgt]
  · intro h0 env2 env3 env4 e2 e3 e4 h2 hc2 h3 hc3 h4 hc4
    obtain ⟨c2, r2⟩ :=
      soft_cycle_step env2 (async_update_data env st).1 e2 h2 hc2
    obtain ⟨c3, r3⟩ :=
      soft_cycle_step env3
        (async_update_data env2 (async_update_data env st).1).1 e3 h3 hc3
    obtain ⟨c4, r4⟩ :=
      soft_cycle_step env4
        (async_update_data env3
          (async_update_data env2 (async_update_data env st).1).1).1 e4 h4 hc4
    rw [h0] at c1 r1
    rw [c1] at c2 r2
    rw [c2] at c3 r3
    rw [c3] at c4 r4
    simp only [runCycles_cons, runCycles, r1, r2, r3, r4]
    norm_num

/-- C1 witness: a concrete coordinator with zero failure counter and a
transport-failing ping; the counter increments, no failure is reported
on the first three failures, and the 4th failing cycle raises. -/
theorem C1_soft_failure_debounce_witness :
    (async_update_data ⟨.requestError, .ok [], .ok []⟩ ⟨[], [], 0⟩).1.failureCount = 1 ∧
    ((async_update_data ⟨.requestError, .ok [], .ok []⟩ ⟨[], [], 0⟩).2 =
        CycleReport.updateFailed ↔ 0 + 1 > 3) ∧
    (runCycles
        [⟨.requestError, .ok [], .ok []⟩, ⟨.requestError, .ok [], .ok []⟩,
          ⟨.requestError, .ok [], .ok []⟩, ⟨.requestError, .ok [], .ok []⟩]
        ⟨[], [], 0⟩).2 =
      [CycleReport.returned, CycleReport.returned,
        CycleReport.returned, CycleReport.updateFailed] := by
  have h := C1_soft_failure_debounce ⟨[], [], 0⟩ ⟨.requestError, .ok [], .ok []⟩
    .requestError rfl rfl
  exact ⟨h.1.1, h.1.2,
    h.2 rfl ⟨.requestError, .ok [], .ok []⟩ ⟨.requestError, .ok [], .ok []⟩
      ⟨.requestError, .ok [], .ok []⟩ .requestError .requestError .requestError
      rfl rfl rfl rfl rfl rfl⟩

/-- C3: a cycle in which the ping and device fetch succeed but the
consumption fetch raises `FloRequestError` empties the cached
consumption document, resets the failure counter to 0, and returns
without reporting failure. -/
theorem C3_consumption_failure_nonfatal (st : CoordState) (env : CycleEnv)
    (p d : List (String × JVal))
    (hp : env.ping = .ok p) (hd : env.device = .ok d)
    (hc : env.consumption = .requestError) :
    async_update_data env st =
      ({ deviceInformation := d, waterUsage := [], failureCount := 0 },
        CycleReport.returned) := by
  obtain ⟨ping, dev, cons⟩ := env
  cases hp; cases hd; cases hc
  rfl

/-- C3 witness: concrete cycle with a failing consumption fetch on a
coordinator holding stale documents and a nonzero counter. -/
theorem C3_consumption_failure_nonfatal_witness :
    async_update_data
        ⟨.ok [("ok", .bool true)], .ok [("deviceModel", .str "flo")], .requestError⟩
        ⟨[("old", .null)], [("stale", .num 7)], 2⟩ =
      ({ deviceInformation := [("deviceModel", .str "flo")], waterUsage := [],
          failureCount := 0 }, CycleReport.returned) :=
  C3_consumption_failure_nonfatal ⟨[("old", .null)], [("stale", .num 7)], 2⟩
    ⟨.ok [("ok", .bool true)], .ok [("deviceModel", .str "flo")], .requestError⟩
    [("ok", .bool true)] [("deviceModel", .str "flo")] rfl rfl rfl

/-- C6: a cycle that fails in the presence ping or the device-info
fetch with a caught (transport/timeout/malformed-response) error leaves
both cached documents exactly as they were; the whole state change is
the failure-counter increment. -/
theorem C6_failed_cycle_frame (st : CoordState) (env : CycleEnv) (e : StepErr)
    (h : env.ping.err? = some e ∨
      (env.ping.err? = none ∧ env.device.err? = some e))
    (hc : e.isCaught = true) :
    (async_update_data env st).1.deviceInformation = st.deviceInformation ∧
    (async_update_data env st).1.waterUsage = st.waterUsage ∧
    (async_update_data env st).1 =
      { st with failureCount := st.failureCount + 1 } := by
  have hb : cycleBody env st = (st, some e) := by
    obtain ⟨p, d, c⟩ := env
    rcases h with h | ⟨h1, h2⟩ <;> cases p <;> cases d <;>
      simp_all [cycleBody, update_device, FetchOutcome.err?]
  have hce : cycleErr env = some e := by
    rw [← cycleBody_err env st, hb]
  rw [async_update_soft env st e hce hc, hb]
  exact ⟨rfl, rfl, rfl⟩

/-- C6 witness: a device fetch that times out on a coordinator holding
stale documents; both documents survive and only the counter moves. -/
theorem C6_failed_cycle_frame_witness :
    (async_update_data ⟨.ok [], .timeoutErr, .ok []⟩
        ⟨[("deviceModel", .str "flo")], [("aggregations", .null)], 1⟩).1.deviceInformation =
      [("deviceModel", .str "flo")] ∧
    (async_update_data ⟨.ok [], .timeoutErr, .ok []⟩
        ⟨[("deviceModel", .str "flo")], [("aggregations", .null)], 1⟩).1.waterUsage =
      [("aggregations", .null)] ∧
    (async_update_data ⟨.ok [], .timeoutErr, .ok []⟩
        ⟨[("deviceModel", .str "flo")], [("aggregations", .null)], 1⟩).1 =
      { deviceInformation := [("deviceModel", .str "flo")],
        waterUsage := [("aggregations", .null)], failureCount := 2 } :=
  C6_failed_cycle_frame ⟨[("deviceModel", .str "flo")], [("aggregations", .null)], 1⟩
    ⟨.ok [], .timeoutErr, .ok []⟩ .timeoutErr (.inr ⟨rfl, rfl⟩) rfl

/-- C5 counterexample: a `FloAuthError` raised inside an update cycle
(here: the token gate of the presence ping fails) escapes the update
method even though the failure counter is 0 ≤ 3 — it is not in the
`except (FloRequestError, TimeoutError, JSONDecodeError)` tuple, so it
is not absorbed into the failure-counter debounce, refuting the claim
that every AuthError is absorbed and that no such error escapes while
the counter is at most 3. -/
theorem C5_auth_error_escapes_cex :
    async_update_data ⟨.authError, .ok [], .ok []⟩ ⟨[], [], 0⟩ =
      (⟨[], [], 0⟩, CycleReport.uncaught .authError) := rfl

/-- C5 (amended): every `FloRequestError`, timeout, and malformed-JSON
error raised inside an update cycle is absorbed into the failure
counter debounce and does not escape while the incremented counter is
at most 3; a `FloAuthError`, by contrast, is not caught: it escapes the
update method regardless of the counter and leaves the counter
unchanged. -/
theorem C5_caught_errors_absorbed (st : CoordState) (env : CycleEnv) :
    (∀ e, cycleErr env = some e → e.isCaught = true →
      st.failureCount + 1 ≤ 3 →
        (async_update_data env st).2 = CycleReport.returned) ∧
    (cycleErr env = some .authError →
      (async_update_data env st).2 = CycleReport.uncaught .authError ∧
      (async_update_data env st).1.failureCount = st.failureCount) := by
  constructor
  · intro e h hc hle
    obtain ⟨-, r⟩ := soft_cycle_step env st e h hc
    rw [r, if_neg (by omega)]
  · intro h
    have hch := async_update_uncaught env st .authError h rfl
    have h2 : (cycleBody env st).2 = some .authError :=
      (cycleBody_err env st).trans h
    rw [hch]
    exact ⟨rfl, cycleBody_count env st .authError h2⟩

/-- C5 amended witness: a concrete soft failure with counter 1 returns
silently, and a concrete auth failure escapes uncaught. -/
theorem C5_caught_errors_absorbed_witness :
    (async_update_data ⟨.jsonError, .ok [], .ok []⟩ ⟨[], [], 1⟩).2 =
      CycleReport.returned ∧
    (async_update_data ⟨.authError, .ok [], .ok []⟩ ⟨[], [], 1⟩).2 =
      CycleReport.uncaught .authError :=
  ⟨(C5_caught_errors_absorbed ⟨[], [], 1⟩ ⟨.jsonError, .ok [], .ok []⟩).1
      .jsonError rfl rfl (by decide),
    ((C5_caught_errors_absorbed ⟨[], [], 1⟩ ⟨.authError, .ok [], .ok []⟩).2 rfl).1⟩

/-- C2: the token gate calls `authenticate` when no (truthy) access
token or no expiration timestamp is held; calls `refresh_access_token`
when the held token's expiration is within 5 minutes (300 seconds) of
the current time; and otherwise issues no network call at all — the
state, the error outcome and the oracle are untouched. -/
theorem C2_token_gate (now : Int) (st : ClientState) (env : Env) :
    ((optTruthy st.accessToken = false ∨ st.tokenExpiration = none) →
      ensure_token_valid now st env =
        (authenticate now st env, GateAction.calledAuthenticate)) ∧
    (∀ exp, st.tokenExpiration = some exp → optTruthy st.accessToken = true →
      now ≥ exp - 300 →
        ensure_token_valid now st env =
          (refresh_access_token now st env, GateAction.calledRefresh)) ∧
    (∀ exp, st.tokenExpiration = some exp → optTruthy st.accessToken = true →
      exp - now > 300 →
        ensure_token_valid now st env = (⟨st, none, env⟩, GateAction.noCall)) := by
  refine ⟨?_, ?_, ?_⟩
  · rintro (htok | hexp)
    · cases hexp : st.tokenExpiration with
      | none => simp [ensure_token_valid, hexp]
      | some exp => simp [ensure_token_valid, hexp, htok]
    · simp [ensure_token_valid, hexp]
  · intro exp hexp htok hnear
    simp [ensure_token_valid, hexp, htok, hnear]
  · intro exp hexp htok hfar
    have : ¬ now ≥ exp - 300 := by omega
    simp [ensure_token_valid, hexp, htok, this]

/-- C2 witness: with a token expiring in 3600 s the gate is a no-op;
with one expiring in 200 s it calls refresh; with no token it calls
authenticate. -/
theorem C2_token_gate_witness :
    ensure_token_valid 0 ⟨none, none, none, none, 0, 0, 0⟩ [] =
      (authenticate 0 ⟨none, none, none, none, 0, 0, 0⟩ [],
        GateAction.calledAuthenticate) ∧
    ensure_token_valid 0 ⟨some (.str "t"), none, some 200, none, 1, 1, 1⟩ [] =
      (refresh_access_token 0 ⟨some (.str "t"), none, some 200, none, 1, 1, 1⟩ [],
        GateAction.calledRefresh) ∧
    ensure_token_valid 0 ⟨some (.str "t"), none, some 3600, none, 1, 1, 1⟩ [] =
      (⟨⟨some (.str "t"), none, some 3600, none, 1, 1, 1⟩, none, []⟩,
        GateAction.noCall) :=
  ⟨(C2_token_gate 0 ⟨none, none, none, none, 0, 0, 0⟩ []).1 (Or.inr rfl),
    (C2_token_gate 0 ⟨some (.str "t"), none, some 200, none, 1, 1, 1⟩ []).2.1
      200 rfl rfl (by omega),
    (C2_token_gate 0 ⟨some (.str "t"), none, some 3600, none, 1, 1, 1⟩ []).2.2
      3600 rfl rfl (by omega)⟩

/-- C8: when no (truthy) refresh token is held, `refresh_access_token`
is the very same computation as `authenticate`: identical resulting
state, identical error outcome, identical oracle consumption. -/
theorem C8_refresh_without_token_is_authenticate (now : Int)
    (st : ClientState) (env : Env)
    (h : optTruthy st.refreshToken = false) :
    refresh_access_token now st env = authenticate now st env := by
  simp [refresh_access_token, h]

/-- C8 witness: a fresh client refreshing consumes the oracle exactly
as a direct authenticate would. -/
theorem C8_refresh_without_token_is_authenticate_witness :
    refresh_access_token 5 initialState [.transportFailure] =
      authenticate 5 initialState [.transportFailure] :=
  C8_refresh_without_token_is_authenticate 5 initialState [.transportFailure] rfl

/-- C7: with a refresh token held, a transport failure of the
refresh-token POST falls back to a full `authenticate` (consuming the
next oracle response) instead of raising; when that authenticate
succeeds, the caller observes no error and the client ends holding the
new access token and expiration from the authenticate exchange. -/
theorem C7_refresh_transport_fallback (now : Int) (st : ClientState)
    (body : List (String × JVal)) (rest : Env) (tok rt uid : JVal) (ei : Int)
    (hrt : optTruthy st.refreshToken = true)
    (h1 : dictGet body "access_token" = some tok)
    (h2 : dictGet body "refresh_token" = some rt)
    (h3 : dictGet body "user_id" = some uid)
    (h4 : dictGet body "expires_in" = some (.num ei)) :
    refresh_access_token now st (.transportFailure :: .success body :: rest) =
      authenticate now st (.success body :: rest) ∧
    (refresh_access_token now st
        (.transportFailure :: .success body :: rest)).err = none ∧
    (refresh_access_token now st
        (.transportFailure :: .success body :: rest)).st.accessToken = some tok ∧
    (refresh_access_token now st
        (.transportFailure :: .success body :: rest)).st.tokenExpiration =
      some (now + ei) := by
  have hfb : refresh_access_token now st
      (.transportFailure :: .success body :: rest) =
      authenticate now st (.success body :: rest) := by
    simp [refresh_access_token, hrt, takeResp]
  refine ⟨hfb, ?_, ?_, ?_⟩ <;> rw [hfb] <;>
    simp [authenticate, takeResp, h1, h2, h3, h4]

/-- C7 witness: a client holding a refresh token, a failing refresh
POST, and a successful password-grant response with a 3600 s lifetime. -/
theorem C7_refresh_transport_fallback_witness :
    (refresh_access_token 100
        ⟨some (.str "old"), some (.str "r"), some 90, some (.str "u"), 1, 1, 1⟩
        [.transportFailure,
          .success [("access_token", .str "new"), ("refresh_token", .str "r2"),
            ("user_id", .str "u"), ("expires_in", .num 3600)]]).err = none ∧
    (refresh_access_token 100
        ⟨some (.str "old"), some (.str "r"), some 90, some (.str "u"), 1, 1, 1⟩
        [.transportFailure,
          .success [("access_token", .str "new"), ("refresh_token", .str "r2"),
            ("user_id", .str "u"), ("expires_in", .num 3600)]]).st.accessToken =
      some (.str "new") :=
  ⟨(C7_refresh_transport_fallback 100
      ⟨some (.str "old"), some (.str "r"), some 90, some (.str "u"), 1, 1, 1⟩
      [("access_token", .str "new"), ("refresh_token", .str "r2"),
        ("user_id", .str "u"), ("expires_in", .num 3600)] []
      (.str "new") (.str "r2") (.str "u") 3600 rfl rfl rfl rfl rfl).2.1,
    (C7_refresh_transport_fallback 100
      ⟨some (.str "old"), some (.str "r"), some 90, some (.str "u"), 1, 1, 1⟩
      [("access_token", .str "new"), ("refresh_token", .str "r2"),
        ("user_id", .str "u"), ("expires_in", .num 3600)] []
      (.str "new") (.str "r2") (.str "u") 3600 rfl rfl rfl rfl rfl).2.2.1⟩

/-- C4 counterexample: one `authenticate` against a success response
that carries `access_token`, `refresh_token` and `user_id` but no
`expires_in` leaves the reachable client state with a non-null access
token and a null expiration — `authenticate` assigns the token fields
one by one before reading `expires_in`, and the `KeyError` is converted
to `FloAuthError` after the partial assignment, refuting the claimed
invariant. -/
theorem C4_partial_auth_response_cex :
    (runOps [.opAuth 0] initialState
        [.success [("access_token", .str "t"), ("refresh_token", .str "r"),
          ("user_id", .str "u")]]).1.accessToken = some (.str "t") ∧
    (runOps [.opAuth 0] initialState
        [.success [("access_token", .str "t"), ("refresh_token", .str "r"),
          ("user_id", .str "u")]]).1.tokenExpiration = none ∧
    some (JVal.str "t") ≠ (none : Option JVal) :=
  ⟨rfl, rfl, by simp⟩

/-- C4 (amended): in every client state reachable from a fresh client
by any sequence of authenticate, refresh, and request operations
(including ones that end in an error), *provided every successful
token-endpoint response that contains `access_token` also contains
`refresh_token`, `user_id`, and a numeric `expires_in`*, a non-null
access token implies a non-null expiration timestamp written by the
same auth exchange.  Without that proviso the invariant fails, as the
counterexample shows. -/
theorem C4_token_exchange_invariant (ops : List ClientOp) (env : Env)
    (hwf : wellFormedEnv env) :
    tokenInv (runOps ops initialState env).1 :=
  (runOps_preserves ops initialState env hwf (fun h => absurd rfl h)).1

/-- C4 amended witness: a fresh client authenticating against one
complete response satisfies the invariant. -/
theorem C4_token_exchange_invariant_witness :
    tokenInv (runOps [.opAuth 0] initialState
      [.success [("access_token", .str "t"), ("refresh_token", .str "r"),
        ("user_id", .str "u"), ("expires_in", .num 3600)]]).1 :=
  C4_token_exchange_invariant [.opAuth 0]
    [.success [("access_token", .str "t"), ("refresh_token", .str "r"),
      ("user_id", .str "u"), ("expires_in", .num 3600)]]
    (by
      intro body hb
      simp only [List.mem_singleton, AuthResp.success.injEq] at hb
      subst hb
      intro _
      exact ⟨Option.some_ne_none _, Option.some_ne_none _, 3600, rfl⟩)

/-- C9 counterexample: with a fetched consumption document whose
`aggregations` field is present (and truthy) but lacks
`sumTotalGallonsConsumed`, `consumption_today` returns the
none-equivalent value, not a numeric value — `aggregations.get(...)`
yields `None` for a missing key — refuting the claim that a fetched
document always yields a numeric value. -/
theorem C9_missing_sum_not_numeric_cex :
    isNoneEquiv (consumption_today
        [("aggregations", .obj [("other", .num 1)])]) = true ∧
    isNumericResult (consumption_today
        [("aggregations", .obj [("other", .num 1)])]) = false :=
  ⟨rfl, rfl⟩

/-- C9 (amended): `consumption_today` returns the none-equivalent
value whenever the cached consumption document is empty (never fetched
or reset), whenever its `aggregations` field is absent or falsy, and
also whenever `aggregations` is present but its
`sumTotalGallonsConsumed` field is absent; it returns the stored sum
value exactly when `aggregations` is a non-empty mapping containing the
sum field. -/
theorem C9_consumption_today_projection (wu : List (String × JVal)) :
    (wu = [] → isNoneEquiv (consumption_today wu) = true) ∧
    (dictGet wu "aggregations" = none →
      isNoneEquiv (consumption_today wu) = true) ∧
    (∀ a, dictGet wu "aggregations" = some a → a.truthy = false →
      isNoneEquiv (consumption_today wu) = true) ∧
    (∀ fs, dictGet wu "aggregations" = some (.obj fs) →
      dictGet fs "sumTotalGallonsConsumed" = none →
      isNoneEquiv (consumption_today wu) = true) ∧
    (∀ fs v, dictGet wu "aggregations" = some (.obj fs) →
      dictGet fs "sumTotalGallonsConsumed" = some v →
      consumption_today wu = .ok (some v)) := by
  refine ⟨?_, ?_, ?_, ?_, ?_⟩
  · rintro rfl
    rfl
  · intro h
    cases wu with
    | nil => rfl
    | cons x xs => simp [consumption_today, h, isNoneEquiv]
  · intro a ha htr
    cases wu with
    | nil => rfl
    | cons x xs => simp [consumption_today, ha, htr, isNoneEquiv]
  · intro fs hfs hsum
    cases wu with
    | nil => simp [dictGet] at hfs
    | cons x xs =>
      by_cases hfs0 : fs = []
      · subst hfs0
        simp [consumption_today, hfs, JVal.truthy, isNoneEquiv]
      · simp [consumption_today, hfs, JVal.truthy, hfs0, hsum, isNoneEquiv]
  · intro fs v hfs hv
    have hfs0 : fs ≠ [] := dictGet_ne_nil hv
    cases wu with
    | nil => simp [dictGet] at hfs
    | cons x xs => simp [consumption_today, hfs, JVal.truthy, hfs0, hv]

/-- C9 amended witness: an empty cache is none-equivalent; a document
with `aggregations.sumTotalGallonsConsumed = 12` yields that value. -/
theorem C9_consumption_today_projection_witness :
    isNoneEquiv (consumption_today []) = true ∧
    consumption_today
        [("aggregations", .obj [("sumTotalGallonsConsumed", .num 12)])] =
      .ok (some (.num 12)) :=
  ⟨(C9_consumption_today_projection []).1 rfl,
    (C9_consumption_today_projection
        [("aggregations", .obj [("sumTotalGallonsConsumed", .num 12)])]).2.2.2.2
      [("sumTotalGallonsConsumed", .num 12)] (.num 12) rfl rfl⟩

/-- C10: when the cached device document lacks `deviceModel`, reading
`device_name` raises the `deviceModel` `KeyError` even when a
`nickname` field is present — the f-string default
`f"{self.manufacturer} {self.model}"` is evaluated before `.get`
resolves the nickname; `device_name` returns the nickname without
error only when `deviceModel` is also present. -/
theorem C10_device_name_needs_model (di : List (String × JVal)) (nick : JVal) :
    (dictGet di "deviceModel" = none → dictGet di "nickname" = some nick →
      device_name di = .error (.keyError "deviceModel")) ∧
    (∀ m, dictGet di "deviceModel" = some m → dictGet di "nickname" = some nick →
      device_name di = .ok nick) := by
  constructor
  · intro hm _
    simp [device_name, model, hm]
  · intro m hm hn
    simp [device_name, model, hm, hn]

/-- C10 witness: a document with a nickname and no `deviceModel`
raises; adding `deviceModel` makes the nickname readable. -/
theorem C10_device_name_needs_model_witness :
    device_name [("nickname", .str "Kitchen")] =
      .error (.keyError "deviceModel") ∧
    device_name [("nickname", .str "Kitchen"), ("deviceModel", .str "flo_075")] =
      .ok (.str "Kitchen") :=
  ⟨(C10_device_name_needs_model [("nickname", .str "Kitchen")]
      (.str "Kitchen")).1 rfl rfl,
    (C10_device_name_needs_model
        [("nickname", .str "Kitchen"), ("deviceModel", .str "flo_075")]
        (.str "Kitchen")).2 (.str "flo_075") rfl rfl⟩

end Flo
